import Mathlib

/-!
Verification of the monalias resolver, rate limiter and identity watchdog.

This file gives a shallow embedding, in Lean, of the Go sources of the
monalias repository: the public resolve handler and its helpers
(internal/http/public.go), the per-IP rate limit middleware
(internal/http/rate_limit.go), the identity watchdog (internal/identity)
and the administrative unlock / run-check mutations (internal/graphql),
over the data model of internal/db. External effects (the SQLite store,
the monero-wallet-rpc bridge, the outbound well-known fetch, the Ed25519
primitive) enter as explicit environment values, so every definition is
executable and every resolution is a pure function of its environment.
-/

namespace Monalias

/-- Go database/sql NullString: a string together with a validity flag. -/
structure NullString where
  string : String
  valid : Bool
  deriving Repr, DecidableEq

/-- Go database/sql NullInt64: an integer together with a validity flag. -/
structure NullInt64 where
  int64 : Int
  valid : Bool
  deriving Repr, DecidableEq

/-- Row of the instance_config table (internal/db/db.go, InstanceConfig).
The last_identity_check_at column is not read by any embedded operation and
is omitted. -/
structure InstanceConfig where
  domain : String
  homeserver : String
  signingKeyID : String
  signingPubkey : String
  status : String
  statusReason : NullString
  deriving Repr, DecidableEq

/-- Row of the accounts table (internal/db/db.go, Account); creation
timestamps are not read by the resolver and are omitted. -/
structure Account where
  id : Int
  handle : String
  walletName : NullString
  deriving Repr, DecidableEq

/-- Row of the aliases table (internal/db/db.go, Alias); creation and update
timestamps are not read by the resolver and are omitted. -/
structure Alias where
  id : Int
  accountID : Int
  fullAcct : String
  aliasLabel : String
  mode : String
  staticAddress : NullString
  nextSubaddrIdx : NullInt64
  deriving Repr, DecidableEq

/-- The relational store as read by the resolver: the aliases and accounts
tables. -/
structure DBState where
  aliases : List Alias
  accounts : List Account
  deriving Repr, DecidableEq

/-- GetAliasByFullAcct (internal/db/db.go): lookup of an alias row by its
unique full_acct key; none models sql.ErrNoRows. -/
def getAliasByFullAcct (db : DBState) (fullAcct : String) : Option Alias :=
  db.aliases.find? fun a => a.fullAcct == fullAcct

/-- GetAccount (internal/db/db.go): lookup of an account row by id; none
models sql.ErrNoRows. -/
def getAccount (db : DBState) (id : Int) : Option Account :=
  db.accounts.find? fun a => a.id == id

/-- Helper for the model of strings.Split: split a character list at every
occurrence of the separator character, accumulating the current segment in
reverse. -/
def splitCharsAux (sep : Char) (acc : List Char) : List Char → List (List Char)
  | [] => [acc.reverse]
  | c :: cs =>
    if c = sep then acc.reverse :: splitCharsAux sep [] cs
    else splitCharsAux sep (c :: acc) cs

/-- Model of Go strings.Split for a one-character separator: the list of
segments between occurrences of the separator; the empty string yields one
empty segment, exactly as in Go. -/
def goSplit (s : String) (sep : Char) : List String :=
  (splitCharsAux sep [] s.data).map fun cs => String.mk cs

/-- Model of Go strings.EqualFold by simple case folding. Go folds the full
Unicode range; the embedding folds with Char.toLower, which agrees with Go
on ASCII, and every domain and acct considered in this development is
ASCII. -/
def eqFold (a b : String) : Bool :=
  a.data.map Char.toLower == b.data.map Char.toLower

/-- acctMatchesDomain (internal/http/public.go): the acct splits on the
dollar separator into exactly two parts and the second part equals the
configured domain case-insensitively. -/
def acctMatchesDomain (acct domain : String) : Bool :=
  match goSplit acct '$' with
  | [_, d] => eqFold d domain
  | _ => false

/-- displayNameFromAcct (internal/http/public.go): the local part of the
acct up to the first plus sign; empty when the local part is empty. -/
def displayNameFromAcct (acct : String) : String :=
  match goSplit acct '$' with
  | [] => ""
  | l :: _ =>
    if l = "" then ""
    else (goSplit l '+').headD l

/-- One observable call made to the external monero-wallet-rpc bridge. -/
inductive BridgeCall where
  | openWallet (name : String)
  | getAddress (index : Int)
  deriving Repr, DecidableEq

/-- Environment of the wallet bridge (internal/monero/wallet_rpc.go seen as
a black box): whether the client is enabled, and the answers the external
service returns. Answers are indexed by the number of bridge calls made so
far, so successive calls may answer differently. -/
structure WalletEnv where
  enabled : Bool
  openWalletAnswer : Nat → String → Except String Unit
  getAddressAnswer : Nat → Int → Except String String

/-- The resolve request body after JSON decoding (resolveRequest in
internal/http/public.go). -/
structure ResolveRequest where
  acct : String
  network : String
  deriving Repr, DecidableEq

/-- The meta object of a success body (resolveMeta in
internal/http/public.go); aliasLabel embeds the Go field Alias. -/
structure ResolveMeta where
  displayName : Option String
  aliasLabel : Option String
  resolvedKind : String
  deriving Repr, DecidableEq

/-- A success body (resolveResponse in internal/http/public.go). ExpiresAt
is carried as its already formatted RFC3339 text, none when absent; the
handler never sets it. -/
structure ResolveResponse where
  address : String
  network : String
  meta : ResolveMeta
  expiresAt : Option String
  deriving Repr, DecidableEq

/-- One HTTP answer of the resolve endpoint: writeJSONError,
writeJSONErrorWithReason, or a signed success with the two signature
headers. -/
inductive ResolveResult where
  | jsonError (status : Nat) (code : String)
  | jsonErrorWithReason (status : Nat) (code : String) (reason : Option String)
  | ok (resp : ResolveResponse) (keyIDHeader : String) (sigHeader : String)
  deriving Repr, DecidableEq

/-- Static configuration and external answers a resolution runs against:
the configured domain, catch-all address and signing key id of
PublicService, the signing primitive (base64 of the Ed25519 signature over
the UTF-8 bytes of the argument), the answer of GetInstanceConfig, the
store, and the wallet bridge (none models a nil WalletRPC pointer). -/
structure ResolveEnv where
  cfgDomain : String
  catchAll : String
  signingKID : String
  sign : String → String
  instCfg : Option InstanceConfig
  db : DBState
  wallet : Option WalletEnv

/-- The newline used by the canonical string join. -/
def newline : String := "\n"

/-- The canonical sign string (signResolveResponse in
internal/http/public.go): the newline join of the literal tag, the request
acct, the response address, the request network, the expires segment and
the signing key id. -/
def canonicalString (acct address network expires kid : String) : String :=
  String.intercalate newline ["MONALIAS_RESOLVE", acct, address, network, expires, kid]

/-- The expires segment of the canonical string: the formatted time when
present, the empty string when absent; the segment is always part of the
join. -/
def expiresSegment : Option String → String
  | none => ""
  | some s => s

/-- signResolveResponse (internal/http/public.go): build the canonical
string and produce the two response headers, X-Monalias-Key-Id and
X-Monalias-Sig, the latter carrying the signature of the canonical
string. -/
def signResolveResponse (env : ResolveEnv) (req : ResolveRequest)
    (resp : ResolveResponse) : String × String :=
  let expires := expiresSegment resp.expiresAt
  let canonical := canonicalString req.acct resp.address req.network expires env.signingKID
  (env.signingKID, env.sign canonical)

/-- resolveAlias (internal/http/public.go): derive the address of a stored
alias. The Nat argument counts bridge calls made so far and indexes the
bridge answers; the returned list records the bridge calls this derivation
made. The source performs no store write on this path. -/
def resolveAlias (env : ResolveEnv) (t : Nat) (a : Alias) :
    Except String (String × Option String × String) × Nat × List BridgeCall :=
  let label := a.aliasLabel
  let resolvedKind := "NORMAL"
  if a.mode = "STATIC_ADDRESS" then
    if ¬ a.staticAddress.valid ∨ a.staticAddress.string = "" then
      (.error "static address missing", t, [])
    else
      (.ok (a.staticAddress.string, some label, resolvedKind), t, [])
  else if a.mode = "DYNAMIC_SUBADDRESS" then
    if a.staticAddress.valid ∧ a.staticAddress.string ≠ "" then
      (.ok (a.staticAddress.string, some label, resolvedKind), t, [])
    else if ¬ a.nextSubaddrIdx.valid then
      (.error "dynamic alias missing index", t, [])
    else
      match env.wallet with
      | none => (.error "wallet rpc not configured", t, [])
      | some w =>
        if ¬ w.enabled then
          (.error "wallet rpc not configured", t, [])
        else
          match getAccount env.db a.accountID with
          | none => (.error "account lookup failed", t, [])
          | some acct =>
            if ¬ acct.walletName.valid ∨ acct.walletName.string = "" then
              (.error "wallet name missing", t, [])
            else
              match w.openWalletAnswer t acct.walletName.string with
              | .error e => (.error e, t + 1, [.openWallet acct.walletName.string])
              | .ok _ =>
                match w.getAddressAnswer (t + 1) a.nextSubaddrIdx.int64 with
                | .error e =>
                  (.error e, t + 2,
                    [.openWallet acct.walletName.string, .getAddress a.nextSubaddrIdx.int64])
                | .ok addr =>
                  (.ok (addr, some label, resolvedKind), t + 2,
                    [.openWallet acct.walletName.string, .getAddress a.nextSubaddrIdx.int64])
  else
    (.error "unknown alias mode", t, [])

/-- handleCatchAll (internal/http/public.go): with no catch-all configured
answer alias_not_found; otherwise a signed success carrying the catch-all
address, kind CATCH_ALL, no alias label, and a display name built from the
configured domain. -/
def handleCatchAll (env : ResolveEnv) (req : ResolveRequest) : ResolveResult :=
  if env.catchAll = "" then
    .jsonError 404 "alias_not_found"
  else
    let display := env.cfgDomain ++ " (catch-all)"
    let resp : ResolveResponse :=
      { address := env.catchAll
        network := req.network
        meta :=
          { displayName := if display ≠ "" then some display else none
            aliasLabel := none
            resolvedKind := "CATCH_ALL" }
        expiresAt := none }
    let (kid, sig) := signResolveResponse env req resp
    .ok resp kid sig

/-- handleResolve (internal/http/public.go) on an already decoded request
body: read the instance config, refuse when LOCKED, validate the input,
check the domain, look the alias up, derive, and sign. The Nat threads the
bridge call count; the list records the bridge calls made. -/
def handleResolve (env : ResolveEnv) (t : Nat) (req : ResolveRequest) :
    ResolveResult × Nat × List BridgeCall :=
  match env.instCfg with
  | none => (.jsonError 500 "server_error", t, [])
  | some instCfg =>
    if instCfg.status = "LOCKED" then
      (.jsonErrorWithReason 503 "instance_locked"
        (if instCfg.statusReason.valid then some instCfg.statusReason.string else none),
        t, [])
    else if req.acct = "" ∨ req.network = "" then
      (.jsonError 400 "bad_request", t, [])
    else if req.network ≠ "mainnet" ∧ req.network ≠ "stagenet" then
      (.jsonError 400 "invalid_network", t, [])
    else if ¬ acctMatchesDomain req.acct env.cfgDomain then
      (.jsonError 404 "alias_not_found", t, [])
    else
      match getAliasByFullAcct env.db req.acct with
      | none => (handleCatchAll env req, t, [])
      | some a =>
        match resolveAlias env t a with
        | (.error _, t2, calls) => (.jsonError 500 "server_error", t2, calls)
        | (.ok (address, aliasLabel, resolvedKind), t2, calls) =>
          let base : ResolveResponse :=
            { address := address
              network := req.network
              meta :=
                { displayName := none
                  aliasLabel := aliasLabel
                  resolvedKind := resolvedKind }
              expiresAt := none }
          let display := displayNameFromAcct req.acct
          let resp :=
            if display ≠ "" then
              { base with meta := { base.meta with displayName := some display } }
            else base
          let (kid, sig) := signResolveResponse env req resp
          (.ok resp kid sig, t2, calls)

/-- One key entry of the well-known identity document (the keys array in
internal/identity, wellKnown). -/
structure WellKnownKey where
  kid : String
  alg : String
  publicKey : String
  use : String
  deriving Repr, DecidableEq

/-- The well-known identity document (wellKnown in internal/identity). -/
structure WellKnown where
  homeserver : String
  version : String
  keys : List WellKnownKey
  deriving Repr, DecidableEq

/-- The outcome of the well-known fetch: the client returned an error, or a
response with a status code and the result of decoding its body — none
models a body the decoder rejects. -/
inductive FetchOutcome where
  | doError
  | response (statusCode : Nat) (body : Option WellKnown)
  deriving Repr, DecidableEq

/-- Environment one watchdog cycle runs against: the configured domain and
public base URL, the answer of GetInstanceConfig, whether building the
well-known request succeeded (http.NewRequestWithContext fails exactly when
the configured domain yields an invalid URL), the fetch outcome, and the
current time. -/
structure WatchdogEnv where
  cfgDomain : String
  publicBaseURL : String
  instCfg : Option InstanceConfig
  reqBuildOk : Bool
  fetch : FetchOutcome
  now : Nat
  deriving Repr, DecidableEq

/-- What one cycle did to the instance_config row: aborted with a
propagated error before any write, or wrote status, reason and check
timestamp in one UpdateInstanceStatus call. -/
inductive CheckResult where
  | aborted
  | wrote (status : String) (reason : Option String) (lastCheckAt : Nat)
  deriving Repr, DecidableEq

/-- keyMatches (internal/identity): some key entry matches both the
configured signing key id and the configured signing public key. -/
def keyMatches (keys : List WellKnownKey) (kid pubkey : String) : Bool :=
  keys.any fun k => k.kid == kid && k.publicKey == pubkey

/-- CheckOnce (internal/identity): one watchdog cycle. An unreadable
instance config or a failed request construction aborts the cycle without
a write; a failed or unparseable fetch writes DEGRADED
well_known_unreachable; a homeserver or key mismatch writes LOCKED
identity_mismatch; otherwise OK with the reason cleared — each via one
markStatus call carrying the current time. -/
def checkOnce (env : WatchdogEnv) : CheckResult :=
  match env.instCfg with
  | none => .aborted
  | some cfg =>
    if ¬ env.reqBuildOk then .aborted
    else
      match env.fetch with
      | .doError => .wrote "DEGRADED" (some "well_known_unreachable") env.now
      | .response code body =>
        if code ≠ 200 then .wrote "DEGRADED" (some "well_known_unreachable") env.now
        else
          match body with
          | none => .wrote "DEGRADED" (some "well_known_unreachable") env.now
          | some wk =>
            if wk.homeserver ≠ env.publicBaseURL then
              .wrote "LOCKED" (some "identity_mismatch") env.now
            else if ¬ keyMatches wk.keys cfg.signingKeyID cfg.signingPubkey then
              .wrote "LOCKED" (some "identity_mismatch") env.now
            else
              .wrote "OK" none env.now

/-- UnlockInstance (internal/graphql/server.go): the administrative unlock
runs the watchdog check and accepts its result. -/
def unlockInstance (env : WatchdogEnv) : CheckResult :=
  checkOnce env

/-- RunIdentityCheck (internal/graphql/server.go): the administrative
run-check-now runs the watchdog check and accepts its result. -/
def runIdentityCheck (env : WatchdogEnv) : CheckResult :=
  checkOnce env

/-- One tick of Run (internal/identity): the timer path runs the watchdog
check and discards the returned pair. -/
def watchdogTimerTick (env : WatchdogEnv) : CheckResult :=
  checkOnce env

/-- The part of the spec text for one cycle, sections 4.3 steps 3 to 5,
written from the words of the spec for comparison with checkOnce: fetch
failure or parse failure gives DEGRADED well_known_unreachable; a
homeserver or key mismatch gives LOCKED identity_mismatch; otherwise OK
with the reason cleared; always with the current timestamp. -/
def fetchDoc : FetchOutcome → Option WellKnown
  | .doError => none
  | .response code body => if code = 200 then body else none

/-- Spec-side outcome of one cycle past the config read, following the
words of spec section 4.3; compared with checkOnce in the theorems. -/
def checkOutcomeSpec (env : WatchdogEnv) (cfg : InstanceConfig) : CheckResult :=
  match fetchDoc env.fetch with
  | none => .wrote "DEGRADED" (some "well_known_unreachable") env.now
  | some wk =>
    if wk.homeserver ≠ env.publicBaseURL ∨ ¬ keyMatches wk.keys cfg.signingKeyID cfg.signingPubkey then
      .wrote "LOCKED" (some "identity_mismatch") env.now
    else
      .wrote "OK" none env.now

/-- The per-IP entry of the rate limiter map (ipLimiter in
internal/http/rate_limit.go): the bucket of the external token-bucket
library together with the last access time, abstracted to the data the
middleware could in principle consult. -/
structure IpLimiterState where
  tokens : Int
  lastSeen : Nat
  deriving Repr, DecidableEq

/-- The fixed rejection the middleware writes (internal/http/rate_limit.go):
status 429, a Retry-After header of 30, and the literal JSON body carrying
error rate_limited and retry_after_seconds 30, modeled by its fields. -/
structure RateLimitRejection where
  status : Nat
  retryAfterHeader : String
  errorCode : String
  retryAfterSeconds : Nat
  deriving Repr, DecidableEq

/-- The constant rejection written on every rate limited request. -/
def rateLimitRejection : RateLimitRejection :=
  { status := 429
    retryAfterHeader := "30"
    errorCode := "rate_limited"
    retryAfterSeconds := 30 }

/-- Outcome of the middleware: the request was rejected with a written
response, or passed through to the next handler. -/
inductive MiddlewareOutcome where
  | rejected (r : RateLimitRejection)
  | passedThrough
  deriving Repr, DecidableEq

/-- Middleware (internal/http/rate_limit.go): consult the bucket of the
source, and on a false answer of Allow write the fixed rejection; the
entry argument is the bucket state the closure holds, which the written
rejection does not read. -/
def middleware (_entry : IpLimiterState) (allowAnswer : Bool) : MiddlewareOutcome :=
  if ¬ allowAnswer then .rejected rateLimitRejection
  else .passedThrough

end Monalias

namespace Monalias

/-! Concrete environments used by the witnesses and counterexamples. -/

/-- A healthy instance config row. -/
def cfgOK : InstanceConfig :=
  { domain := "example.com", homeserver := "https://example.com"
    signingKeyID := "kid1", signingPubkey := "pk1"
    status := "OK", statusReason := { string := "", valid := false } }

/-- A locked instance config row with a stored reason. -/
def cfgLockedMaint : InstanceConfig :=
  { domain := "example.com", homeserver := "https://example.com"
    signingKeyID := "kid1", signingPubkey := "pk1"
    status := "LOCKED", statusReason := { string := "maintenance", valid := true } }

/-- A resolve environment with a healthy instance, an empty store, no
catch-all and no wallet bridge. -/
def envSimple : ResolveEnv :=
  { cfgDomain := "example.com", catchAll := "", signingKID := "kid1"
    sign := fun s => "SIG:" ++ s
    instCfg := some cfgOK
    db := { aliases := [], accounts := [] }
    wallet := none }

/-- The same environment with the instance locked. -/
def envLocked : ResolveEnv :=
  { envSimple with instCfg := some cfgLockedMaint }

/-- A dynamic alias with no cached address and a stored derivation index. -/
def aliasDyn : Alias :=
  { id := 1, accountID := 1, fullAcct := "bob$example.com", aliasLabel := "default"
    mode := "DYNAMIC_SUBADDRESS"
    staticAddress := { string := "", valid := false }
    nextSubaddrIdx := { int64 := 5, valid := true } }

/-- A dynamic alias with a cached address and no valid derivation index. -/
def aliasCached : Alias :=
  { id := 2, accountID := 1, fullAcct := "kai$example.com", aliasLabel := "tips"
    mode := "DYNAMIC_SUBADDRESS"
    staticAddress := { string := "addrC", valid := true }
    nextSubaddrIdx := { int64 := 0, valid := false } }

/-- An alias whose mode is neither of the two known literals. -/
def aliasWeird : Alias :=
  { id := 3, accountID := 1, fullAcct := "odd$example.com", aliasLabel := "odd"
    mode := "SOMETHING_ELSE"
    staticAddress := { string := "x", valid := true }
    nextSubaddrIdx := { int64 := 0, valid := false } }

/-- An alias stored under a foreign domain suffix. -/
def aliasOther : Alias :=
  { id := 4, accountID := 1, fullAcct := "bob$other.com", aliasLabel := "default"
    mode := "STATIC_ADDRESS"
    staticAddress := { string := "addrO", valid := true }
    nextSubaddrIdx := { int64 := 0, valid := false } }

/-- The owning account of the aliases above, bound to a named wallet. -/
def acct1 : Account :=
  { id := 1, handle := "bob$example.com", walletName := { string := "w1", valid := true } }

/-- A wallet bridge that opens every wallet and answers addrA on the first
derivation and addrB on every later one. -/
def walletFlaky : WalletEnv :=
  { enabled := true
    openWalletAnswer := fun _ _ => .ok ()
    getAddressAnswer := fun t _ => .ok (if t ≤ 1 then "addrA" else "addrB") }

/-- A resolve environment holding the dynamic alias and the flaky bridge. -/
def envDyn : ResolveEnv :=
  { cfgDomain := "example.com", catchAll := "", signingKID := "kid1"
    sign := fun s => "SIG:" ++ s
    instCfg := some cfgOK
    db := { aliases := [aliasDyn], accounts := [acct1] }
    wallet := some walletFlaky }

/-- A resolve environment with a catch-all address configured. -/
def envCatch : ResolveEnv :=
  { envSimple with catchAll := "89CatchAllAddr" }

/-- A resolve environment whose store holds only an alias of a foreign
domain suffix. -/
def envOther : ResolveEnv :=
  { envSimple with db := { aliases := [aliasOther], accounts := [acct1] } }

/-- A resolve environment whose store holds only the unknown-mode alias. -/
def envWeird : ResolveEnv :=
  { envSimple with db := { aliases := [aliasWeird], accounts := [acct1] } }

/-- The request for the dynamic alias. -/
def reqBob : ResolveRequest := { acct := "bob$example.com", network := "mainnet" }

/-- The success body of the first dynamic resolution. -/
def respA : ResolveResponse :=
  { address := "addrA", network := "mainnet"
    meta := { displayName := some "bob", aliasLabel := some "default", resolvedKind := "NORMAL" }
    expiresAt := none }

/-- The success body of the second dynamic resolution. -/
def respB : ResolveResponse := { respA with address := "addrB" }

/-- The signature header of the first dynamic resolution. -/
def sigA : String := "SIG:" ++ canonicalString "bob$example.com" "addrA" "mainnet" "" "kid1"

/-- The signature header of the second dynamic resolution. -/
def sigB : String := "SIG:" ++ canonicalString "bob$example.com" "addrB" "mainnet" "" "kid1"

/-- A well-known document matching the healthy config. -/
def wkGood : WellKnown :=
  { homeserver := "https://example.com", version := "0.1"
    keys := [{ kid := "kid1", alg := "Ed25519", publicKey := "pk1", use := "sig" }] }

/-- A well-known document declaring a foreign homeserver. -/
def wkBad : WellKnown :=
  { wkGood with homeserver := "https://evil.example.net" }

/-- A watchdog cycle whose request construction fails: the configured
domain contains a space, so the well-known URL built from it is invalid and
http.NewRequestWithContext returns an error before any fetch. -/
def envWatchAbort : WatchdogEnv :=
  { cfgDomain := "exa mple.com", publicBaseURL := "https://example.com"
    instCfg := some cfgOK, reqBuildOk := false, fetch := .doError, now := 7 }

/-- A watchdog cycle that fetches a matching document. -/
def envWatchOK : WatchdogEnv :=
  { cfgDomain := "example.com", publicBaseURL := "https://example.com"
    instCfg := some cfgOK, reqBuildOk := true
    fetch := .response 200 (some wkGood), now := 7 }

/-- A watchdog cycle that fetches a document with a mismatched
homeserver. -/
def envWatchMismatch : WatchdogEnv :=
  { envWatchOK with fetch := .response 200 (some wkBad) }

/-- A rate limiter bucket entry for the witnesses. -/
def entryW : IpLimiterState := { tokens := 0, lastSeen := 3 }

end Monalias

namespace Monalias

/-! Theorems. Each claim of the specification gets one theorem below;
helper lemmas come first. -/

/-- Helper: appending the catch-all suffix never yields the empty string,
so the catch-all display name is always set. -/
theorem catchall_display_ne (s : String) : ¬ (s ++ " (catch-all)" = "") := by
  intro h
  have hl := congrArg String.length h
  rw [String.length_append] at hl
  have h1 : (" (catch-all)" : String).length = 12 := rfl
  have h2 : ("" : String).length = 0 := rfl
  rw [h1, h2] at hl
  omega

/-- C1 counterexample: in the environment envDyn the dynamic alias has no
cached address, and the bridge answers addrA on the first derivation and
addrB on the second. The first resolution succeeds with addrA, yet the
second resolution of the same alias calls the bridge again and returns the
different address addrB, and both resolutions leave the store untouched —
resolveAlias and handleResolve carry no store write at all, mirroring the
source, which never calls UpdateAliasStaticAddress on this path. This
refutes the claim that the first successful resolution persists the
derived address so that a second resolution returns the identical address
without a bridge call. -/
theorem dynamic_rederivation_counterexample :
    handleResolve envDyn 0 reqBob =
      (.ok respA "kid1" sigA, 2, [.openWallet "w1", .getAddress 5]) ∧
    handleResolve envDyn 2 reqBob =
      (.ok respB "kid1" sigB, 4, [.openWallet "w1", .getAddress 5]) ∧
    respA.address ≠ respB.address := by
  decide

/-- C1 amended: for an alias of mode DYNAMIC_SUBADDRESS with no cached
address, resolution never persists the derived address; every resolution
opens the named wallet and queries the bridge anew at the stored index,
and returns whatever the bridge answers at that moment, which may differ
between resolutions. -/
theorem dynamic_uncached_resolution_queries_bridge (env : ResolveEnv) (t : Nat)
    (a : Alias) (w : WalletEnv) (acct : Account) (addr : String)
    (hm : a.mode = "DYNAMIC_SUBADDRESS")
    (hcache : a.staticAddress.valid = false ∨ a.staticAddress.string = "")
    (hidx : a.nextSubaddrIdx.valid = true)
    (hw : env.wallet = some w) (hen : w.enabled = true)
    (hacct : getAccount env.db a.accountID = some acct)
    (hwn : acct.walletName.valid = true) (hwns : acct.walletName.string ≠ "")
    (hopen : w.openWalletAnswer t acct.walletName.string = .ok ())
    (hget : w.getAddressAnswer (t + 1) a.nextSubaddrIdx.int64 = .ok addr) :
    resolveAlias env t a =
      (.ok (addr, some a.aliasLabel, "NORMAL"), t + 2,
        [.openWallet acct.walletName.string, .getAddress a.nextSubaddrIdx.int64]) := by
  rcases hcache with hc | hc <;>
    simp [resolveAlias, hm, hc, hidx, hw, hen, hacct, hwn, hwns, hopen, hget]

/-- C1 witness: the amended theorem applied to the concrete dynamic alias
and the flaky bridge at call count zero. -/
theorem dynamic_uncached_resolution_queries_bridge_witness :
    resolveAlias envDyn 0 aliasDyn =
      (.ok ("addrA", some "default", "NORMAL"), 2, [.openWallet "w1", .getAddress 5]) :=
  dynamic_uncached_resolution_queries_bridge envDyn 0 aliasDyn walletFlaky acct1 "addrA"
    rfl (Or.inl rfl) rfl rfl rfl (by decide) rfl (by decide) rfl rfl

/-- C2 counterexample: with the instance LOCKED (reason maintenance), a
request failing basic input validation — empty acct and empty network —
receives instance_locked, not bad_request and not invalid_network: the
LOCKED check runs before input validation in the source. -/
theorem locked_precheck_counterexample :
    handleResolve envLocked 0 { acct := "", network := "" } =
      (.jsonErrorWithReason 503 "instance_locked" (some "maintenance"), 0, []) ∧
    handleResolve envLocked 0 { acct := "", network := "" } ≠
      (.jsonError 400 "bad_request", 0, []) ∧
    handleResolve envLocked 0 { acct := "", network := "" } ≠
      (.jsonError 400 "invalid_network", 0, []) := by
  decide

/-- C2 amended: the LOCKED check runs right after reading the instance
config, before input validation and before the alias lookup; when the
instance is LOCKED every request — also one failing basic input
validation — receives instance_locked with the stored reason if present,
the store is never consulted (the answer is identical under any store) and
no bridge call and no signature is produced. -/
theorem locked_check_before_validation (env : ResolveEnv) (t : Nat)
    (req : ResolveRequest) (cfg : InstanceConfig) (db2 : DBState)
    (h1 : env.instCfg = some cfg) (h2 : cfg.status = "LOCKED") :
    handleResolve env t req =
      (.jsonErrorWithReason 503 "instance_locked"
        (if cfg.statusReason.valid then some cfg.statusReason.string else none), t, []) ∧
    handleResolve { env with db := db2 } t req = handleResolve env t req := by
  constructor
  · simp [handleResolve, h1, h2]
  · simp [handleResolve, h1, h2]

/-- C2 witness: the amended theorem at the locked environment and an
invalid request. -/
theorem locked_check_before_validation_witness :
    handleResolve envLocked 0 { acct := "", network := "" } =
      (.jsonErrorWithReason 503 "instance_locked" (some "maintenance"), 0, []) ∧
    handleResolve { envLocked with db := { aliases := [aliasDyn], accounts := [acct1] } } 0
        { acct := "", network := "" } =
      handleResolve envLocked 0 { acct := "", network := "" } :=
  locked_check_before_validation envLocked 0 { acct := "", network := "" }
    cfgLockedMaint { aliases := [aliasDyn], accounts := [acct1] } rfl rfl

/-- C3: every successful resolution carries, in its two response headers,
the configured signing key id and the signature (env.sign stands for the
base64 Ed25519 signature over the UTF-8 bytes of its argument) of the
canonical string: the newline join, in this order, of the literal tag
MONALIAS_RESOLVE, the request acct, the response address, the request
network, the expires segment — the formatted expires_at or the empty
string, never omitted from the join — and the signing key id. -/
theorem signed_canonical_string (env : ResolveEnv) (t : Nat) (req : ResolveRequest)
    (res : ResolveResponse) (kid sig : String) (t2 : Nat) (calls : List BridgeCall)
    (h : handleResolve env t req = (.ok res kid sig, t2, calls)) :
    kid = env.signingKID ∧
    sig = env.sign (canonicalString req.acct res.address req.network
      (expiresSegment res.expiresAt) env.signingKID) := by
  simp only [handleResolve, handleCatchAll, signResolveResponse] at h
  repeat' split at h
  all_goals simp only [Prod.mk.injEq, ResolveResult.ok.injEq, reduceCtorEq,
    false_and, and_false] at h
  all_goals obtain ⟨⟨hres, hkid, hsig⟩, hts, hcs⟩ := h
  all_goals subst hres
  all_goals subst hkid
  all_goals subst hsig
  all_goals simp [expiresSegment]

/-- C3 witness: the theorem at the concrete successful dynamic
resolution. -/
theorem signed_canonical_string_witness :
    "kid1" = envDyn.signingKID ∧
    sigA = envDyn.sign (canonicalString reqBob.acct respA.address reqBob.network
      (expiresSegment respA.expiresAt) envDyn.signingKID) :=
  signed_canonical_string envDyn 0 reqBob respA "kid1" sigA 2
    [.openWallet "w1", .getAddress 5] (by decide)

/-- C4 counterexample: a watchdog cycle that reads the instance config but
fails to construct the well-known request (the configured domain holds a
space, so the URL built from it is invalid and http.NewRequestWithContext
errors) aborts without writing any status — refuting the claim that every
cycle past the config read writes one of the three statuses. -/
theorem watchdog_request_abort_counterexample :
    envWatchAbort.instCfg = some cfgOK ∧
    checkOnce envWatchAbort = CheckResult.aborted := by
  decide

/-- C4 amended: every watchdog cycle that gets past reading the instance
config and past constructing the well-known request writes exactly one of
the three statuses in one update carrying the current timestamp: DEGRADED
with reason well_known_unreachable when the fetch fails (client error or
non-200 response) or the document fails to decode; LOCKED with reason
identity_mismatch when the document declares a homeserver differing from
the configured public base URL or no key entry matches both the configured
signing key id and public key; OK with the reason cleared otherwise — as
stated by the spec-side outcome checkOutcomeSpec. -/
theorem watchdog_cycle_writes_one_status (env : WatchdogEnv) (cfg : InstanceConfig)
    (h1 : env.instCfg = some cfg) (h2 : env.reqBuildOk = true) :
    checkOnce env = checkOutcomeSpec env cfg ∧
    (checkOutcomeSpec env cfg = .wrote "DEGRADED" (some "well_known_unreachable") env.now ∨
      checkOutcomeSpec env cfg = .wrote "LOCKED" (some "identity_mismatch") env.now ∨
      checkOutcomeSpec env cfg = .wrote "OK" none env.now) := by
  cases hf : env.fetch with
  | doError => simp [checkOnce, checkOutcomeSpec, fetchDoc, h1, h2, hf]
  | response code body =>
    by_cases hc : code = 200
    · cases body with
      | none => simp [checkOnce, checkOutcomeSpec, fetchDoc, h1, h2, hf, hc]
      | some wk =>
        by_cases hh : wk.homeserver = env.publicBaseURL
        · by_cases hk : keyMatches wk.keys cfg.signingKeyID cfg.signingPubkey
          · simp [checkOnce, checkOutcomeSpec, fetchDoc, h1, h2, hf, hc, hh, hk]
          · simp [checkOnce, checkOutcomeSpec, fetchDoc, h1, h2, hf, hc, hh, hk]
        · simp [checkOnce, checkOutcomeSpec, fetchDoc, h1, h2, hf, hc, hh]
    · simp [checkOnce, checkOutcomeSpec, fetchDoc, h1, h2, hf, hc]

/-- C4 witness: the amended theorem at the healthy cycle. -/
theorem watchdog_cycle_writes_one_status_witness :
    checkOnce envWatchOK = checkOutcomeSpec envWatchOK cfgOK ∧
    (checkOutcomeSpec envWatchOK cfgOK =
        .wrote "DEGRADED" (some "well_known_unreachable") envWatchOK.now ∨
      checkOutcomeSpec envWatchOK cfgOK =
        .wrote "LOCKED" (some "identity_mismatch") envWatchOK.now ∨
      checkOutcomeSpec envWatchOK cfgOK = .wrote "OK" none envWatchOK.now) :=
  watchdog_cycle_writes_one_status envWatchOK cfgOK rfl rfl

/-- C5: for a request passing validation whose acct matches the domain but
no stored alias: with a catch-all address configured the answer is a
signed success carrying the catch-all address, kind CATCH_ALL, no alias
label and the display name built from the domain; with no catch-all the
answer is alias_not_found. -/
theorem catchall_fallback (env : ResolveEnv) (t : Nat) (req : ResolveRequest)
    (cfg : InstanceConfig)
    (h1 : env.instCfg = some cfg) (h2 : cfg.status ≠ "LOCKED") (h3 : req.acct ≠ "")
    (h4 : req.network = "mainnet" ∨ req.network = "stagenet")
    (h5 : acctMatchesDomain req.acct env.cfgDomain = true)
    (h6 : getAliasByFullAcct env.db req.acct = none) :
    (env.catchAll ≠ "" →
      handleResolve env t req =
        (.ok
          { address := env.catchAll
            network := req.network
            meta :=
              { displayName := some (env.cfgDomain ++ " (catch-all)")
                aliasLabel := none
                resolvedKind := "CATCH_ALL" }
            expiresAt := none }
          env.signingKID
          (env.sign (canonicalString req.acct env.catchAll req.network "" env.signingKID)),
          t, [])) ∧
    (env.catchAll = "" →
      handleResolve env t req = (.jsonError 404 "alias_not_found", t, [])) := by
  constructor
  · intro hca
    rcases h4 with h4 | h4 <;>
      simp [handleResolve, handleCatchAll, signResolveResponse, expiresSegment,
        h1, h2, h3, h4, h5, h6, hca, catchall_display_ne env.cfgDomain]
  · intro hca
    rcases h4 with h4 | h4 <;>
      simp [handleResolve, handleCatchAll, h1, h2, h3, h4, h5, h6, hca]

/-- C5 witness: the theorem at the environment with a configured catch-all
and an unknown but domain-matching acct. -/
theorem catchall_fallback_witness :
    (envCatch.catchAll ≠ "" →
      handleResolve envCatch 0 { acct := "nobody$example.com", network := "mainnet" } =
        (.ok
          { address := envCatch.catchAll
            network := "mainnet"
            meta :=
              { displayName := some (envCatch.cfgDomain ++ " (catch-all)")
                aliasLabel := none
                resolvedKind := "CATCH_ALL" }
            expiresAt := none }
          envCatch.signingKID
          (envCatch.sign
            (canonicalString "nobody$example.com" envCatch.catchAll "mainnet" ""
              envCatch.signingKID)),
          0, [])) ∧
    (envCatch.catchAll = "" →
      handleResolve envCatch 0 { acct := "nobody$example.com", network := "mainnet" } =
        (.jsonError 404 "alias_not_found", 0, [])) :=
  catchall_fallback envCatch 0 { acct := "nobody$example.com", network := "mainnet" }
    cfgOK rfl (by decide) (by decide) (Or.inl rfl) (by decide) (by decide)

/-- C6 counterexample: the empty acct has no dollar separator, so its
domain suffix does not match the configured domain, yet the resolver
answers bad_request, not alias_not_found: the emptiness check runs before
the domain check. -/
theorem empty_acct_counterexample :
    acctMatchesDomain "" "example.com" = false ∧
    handleResolve envSimple 0 { acct := "", network := "mainnet" } =
      (.jsonError 400 "bad_request", 0, []) := by
  decide

/-- C6 amended: for every non-empty acct whose domain suffix does not
case-insensitively equal the configured domain — including acct strings
with no dollar or more than one dollar — when the network field is one of
the two allowed literals and the instance config is readable and not
LOCKED, the resolve result is alias_not_found, never bad_request,
regardless of the content of the store and so regardless of whether an
alias with that suffix exists there. -/
theorem domain_mismatch_not_found (env : ResolveEnv) (t : Nat) (req : ResolveRequest)
    (cfg : InstanceConfig)
    (h1 : env.instCfg = some cfg) (h2 : cfg.status ≠ "LOCKED") (h3 : req.acct ≠ "")
    (h4 : req.network = "mainnet" ∨ req.network = "stagenet")
    (h5 : acctMatchesDomain req.acct env.cfgDomain = false) :
    handleResolve env t req = (.jsonError 404 "alias_not_found", t, []) := by
  rcases h4 with h4 | h4 <;> simp [handleResolve, h1, h2, h3, h4, h5]

/-- C6 witness: the amended theorem at a store that does hold an alias
with the requested foreign-suffix acct, which still answers
alias_not_found. -/
theorem domain_mismatch_not_found_witness :
    handleResolve envOther 0 { acct := "bob$other.com", network := "mainnet" } =
      (.jsonError 404 "alias_not_found", 0, []) :=
  domain_mismatch_not_found envOther 0 { acct := "bob$other.com", network := "mainnet" }
    cfgOK rfl (by decide) (by decide) (Or.inl rfl) (by decide)

/-- C7: the administrative unlock, the administrative run-check-now and
the timer tick all run the identical check, checkOnce, and accept its
result; for every external answer all three produce the same outcome, and
when the fetched document still mismatches the configured public base URL
they all remain LOCKED with reason identity_mismatch. -/
theorem unlock_runs_same_check (env : WatchdogEnv) :
    (unlockInstance env = checkOnce env ∧ runIdentityCheck env = checkOnce env ∧
      watchdogTimerTick env = checkOnce env) ∧
    (∀ cfg wk, env.instCfg = some cfg → env.reqBuildOk = true →
      fetchDoc env.fetch = some wk → wk.homeserver ≠ env.publicBaseURL →
      unlockInstance env = .wrote "LOCKED" (some "identity_mismatch") env.now ∧
      runIdentityCheck env = .wrote "LOCKED" (some "identity_mismatch") env.now ∧
      watchdogTimerTick env = .wrote "LOCKED" (some "identity_mismatch") env.now) := by
  refine ⟨⟨rfl, rfl, rfl⟩, ?_⟩
  intro cfg wk h1 h2 h3 h4
  cases hf : env.fetch with
  | doError => rw [hf] at h3; simp [fetchDoc] at h3
  | response code body =>
    rw [hf] at h3
    by_cases hc : code = 200
    · simp [fetchDoc, hc] at h3
      refine ⟨?_, ?_, ?_⟩ <;>
        simp [unlockInstance, runIdentityCheck, watchdogTimerTick, checkOnce,
          h1, h2, hf, hc, h3, h4]
    · simp [fetchDoc, hc] at h3

/-- C7 witness: at the mismatched cycle all three paths stay LOCKED. -/
theorem unlock_runs_same_check_witness :
    unlockInstance envWatchMismatch = .wrote "LOCKED" (some "identity_mismatch") 7 ∧
    runIdentityCheck envWatchMismatch = .wrote "LOCKED" (some "identity_mismatch") 7 ∧
    watchdogTimerTick envWatchMismatch = .wrote "LOCKED" (some "identity_mismatch") 7 :=
  (unlock_runs_same_check envWatchMismatch).2 cfgOK wkBad rfl rfl (by decide) (by decide)

/-- C8: whenever the middleware rejects a request, the written response is
the one fixed constant — status 429, error code rate_limited, a
retry_after_seconds field of 30 and a Retry-After header of 30 — whatever
the bucket state, and every rejected request receives the identical
response. -/
theorem rate_limit_rejection_static (entry : IpLimiterState) (allow : Bool)
    (r : RateLimitRejection)
    (h : middleware entry allow = .rejected r) :
    r = rateLimitRejection ∧ r.status = 429 ∧ r.errorCode = "rate_limited" ∧
    r.retryAfterSeconds = 30 ∧ r.retryAfterHeader = "30" ∧
    (∀ entry2 allow2 r2, middleware entry2 allow2 = .rejected r2 → r2 = r) := by
  have hr : r = rateLimitRejection := by
    cases allow with
    | true => simp [middleware] at h
    | false =>
      simp only [middleware, Bool.false_eq_true, not_false_eq_true, if_pos] at h
      exact (MiddlewareOutcome.rejected.inj h).symm
  subst hr
  refine ⟨rfl, rfl, rfl, rfl, rfl, ?_⟩
  intro e2 a2 r2 h2
  cases a2 with
  | true => simp [middleware] at h2
  | false =>
    simp only [middleware, Bool.false_eq_true, not_false_eq_true, if_pos] at h2
    exact MiddlewareOutcome.rejected.inj h2.symm

/-- C8 witness: the theorem at a concrete bucket state and a false Allow
answer. -/
theorem rate_limit_rejection_static_witness :
    rateLimitRejection = rateLimitRejection ∧ rateLimitRejection.status = 429 ∧
    rateLimitRejection.errorCode = "rate_limited" ∧
    rateLimitRejection.retryAfterSeconds = 30 ∧
    rateLimitRejection.retryAfterHeader = "30" ∧
    (∀ entry2 allow2 r2, middleware entry2 allow2 = .rejected r2 →
      r2 = rateLimitRejection) :=
  rate_limit_rejection_static entryW false rateLimitRejection rfl

/-- C9: a dynamic alias with a non-empty stored address resolves to that
address with kind NORMAL and makes no bridge call, in every environment —
also with a nil or disabled bridge — and for every stored index, also an
absent one: the cached-address check precedes the index and bridge
checks. -/
theorem cached_dynamic_short_circuit (env : ResolveEnv) (t : Nat) (a : Alias)
    (hm : a.mode = "DYNAMIC_SUBADDRESS")
    (hv : a.staticAddress.valid = true) (hs : a.staticAddress.string ≠ "") :
    resolveAlias env t a =
      (.ok (a.staticAddress.string, some a.aliasLabel, "NORMAL"), t, []) := by
  simp [resolveAlias, hm, hv, hs]

/-- C9 witness: the theorem at the cached alias, an environment with no
bridge at all and an invalid stored index. -/
theorem cached_dynamic_short_circuit_witness :
    resolveAlias envSimple 3 aliasCached =
      (.ok ("addrC", some "tips", "NORMAL"), 3, []) :=
  cached_dynamic_short_circuit envSimple 3 aliasCached rfl rfl (by decide)

/-- C10: an alias whose mode is neither STATIC_ADDRESS nor
DYNAMIC_SUBADDRESS resolves to the unknown-mode error value — the branch
returns an error, it cannot produce a success — and the handler answers
status 500 with code server_error. -/
theorem unknown_mode_server_error (env : ResolveEnv) (t : Nat) (req : ResolveRequest)
    (cfg : InstanceConfig) (a : Alias)
    (h1 : env.instCfg = some cfg) (h2 : cfg.status ≠ "LOCKED") (h3 : req.acct ≠ "")
    (h4 : req.network = "mainnet" ∨ req.network = "stagenet")
    (h5 : acctMatchesDomain req.acct env.cfgDomain = true)
    (h6 : getAliasByFullAcct env.db req.acct = some a)
    (hm1 : a.mode ≠ "STATIC_ADDRESS") (hm2 : a.mode ≠ "DYNAMIC_SUBADDRESS") :
    resolveAlias env t a = (.error "unknown alias mode", t, []) ∧
    handleResolve env t req = (.jsonError 500 "server_error", t, []) := by
  refine ⟨by simp [resolveAlias, hm1, hm2], ?_⟩
  rcases h4 with h4 | h4 <;>
    simp [handleResolve, resolveAlias, h1, h2, h3, h4, h5, h6, hm1, hm2]

/-- C10 witness: the theorem at the stored unknown-mode alias. -/
theorem unknown_mode_server_error_witness :
    resolveAlias envWeird 0 aliasWeird = (.error "unknown alias mode", 0, []) ∧
    handleResolve envWeird 0 { acct := "odd$example.com", network := "mainnet" } =
      (.jsonError 500 "server_error", 0, []) :=
  unknown_mode_server_error envWeird 0 { acct := "odd$example.com", network := "mainnet" }
    cfgOK aliasWeird rfl (by decide) (by decide) (Or.inl rfl) (by decide) (by decide)
    (by decide) (by decide)

end Monalias
